import Mathlib

/- Verification of the MQTT remote bridge (panasonic_viera/mqtt_remote.py):
   a shallow embedding of the payload normalizer (_get_payload), the command
   resolver (_get_key_to_send), the message handler (_on_message) and the
   lifecycle stop() of MqttRemoteSubscriber, together with executable models
   of the Python runtime pieces those functions rely on (strict UTF-8
   decoding, str.strip, json.loads, json.dumps, truthiness, str()/repr()). -/

/-- Python values as produced by `json.loads`: None, bool, int, str, list,
dict (with string keys, as every JSON object key is a string).  Floats are
not modelled: JSON texts containing fractional or exponent numbers are
treated as unparseable by the embedded parser, and no claim below depends
on a float payload. -/
inductive PyValue where
  | none : PyValue
  | bool (b : Bool) : PyValue
  | int (n : Int) : PyValue
  | str (s : String) : PyValue
  | list (xs : List PyValue) : PyValue
  | dict (m : List (String × PyValue)) : PyValue

/-- A continuation byte of a UTF-8 sequence (10xxxxxx). -/
def isCont (b : Nat) : Bool := 0x80 ≤ b && b ≤ 0xBF

/-- Strict UTF-8 decoding as performed by Python `bytes.decode("utf-8")`:
rejects continuation bytes in lead position, overlong encodings, surrogate
code points and code points above 0x10FFFF.  Returns `Option.none` exactly
when Python raises `UnicodeDecodeError`. -/
def utf8Decode : List Nat → Option (List Char)
  | [] => some []
  | b :: bs =>
    if b ≤ 0x7F then
      (utf8Decode bs).map (fun cs => Char.ofNat b :: cs)
    else if b < 0xC2 then Option.none
    else if b ≤ 0xDF then
      match bs with
      | b1 :: bs1 =>
        if isCont b1 then
          (utf8Decode bs1).map
            (fun cs => Char.ofNat ((b - 0xC0) * 0x40 + (b1 - 0x80)) :: cs)
        else Option.none
      | [] => Option.none
    else if b ≤ 0xEF then
      match bs with
      | b1 :: b2 :: bs2 =>
        if isCont b1 && isCont b2 then
          let cp := (b - 0xE0) * 0x1000 + (b1 - 0x80) * 0x40 + (b2 - 0x80)
          if 0x800 ≤ cp && (cp < 0xD800 || 0xE000 ≤ cp) then
            (utf8Decode bs2).map (fun cs => Char.ofNat cp :: cs)
          else Option.none
        else Option.none
      | _ => Option.none
    else if b ≤ 0xF4 then
      match bs with
      | b1 :: b2 :: b3 :: bs3 =>
        if isCont b1 && isCont b2 && isCont b3 then
          let cp := (b - 0xF0) * 0x40000 + (b1 - 0x80) * 0x1000
                      + (b2 - 0x80) * 0x40 + (b3 - 0x80)
          if 0x10000 ≤ cp && cp ≤ 0x10FFFF then
            (utf8Decode bs3).map (fun cs => Char.ofNat cp :: cs)
          else Option.none
        else Option.none
      | _ => Option.none
    else Option.none

/-- Whitespace stripped by Python `str.strip()` with no argument (the ASCII
part: space, tab, newline, carriage return, vertical tab, form feed). -/
def isPySpace (c : Char) : Bool :=
  c = ' ' || c = '\t' || c = '\n' || c = '\r' || c.toNat = 11 || c.toNat = 12

/-- Python `str.strip()` on the character list. -/
def pyStripChars (cs : List Char) : List Char :=
  ((cs.dropWhile isPySpace).reverse.dropWhile isPySpace).reverse

/-- Python `str.strip()`. -/
def pyStrip (s : String) : String := String.mk (pyStripChars s.data)

/-- JSON insignificant whitespace (RFC 8259: space, tab, newline, return). -/
def isJsonWs (c : Char) : Bool := c = ' ' || c = '\t' || c = '\n' || c = '\r'

/-- Drop leading JSON whitespace. -/
def skipWs : List Char → List Char
  | [] => []
  | c :: cs => if isJsonWs c then skipWs cs else c :: cs

/-- Value of one hexadecimal digit. -/
def hexDigitVal (c : Char) : Option Nat :=
  if '0' ≤ c && c ≤ '9' then some (c.toNat - 48)
  else if 'a' ≤ c && c ≤ 'f' then some (c.toNat - 87)
  else if 'A' ≤ c && c ≤ 'F' then some (c.toNat - 55)
  else Option.none

/-- Body of a JSON string after the opening quote: returns the decoded
characters and the remaining input after the closing quote.  Handles the
escape sequences of RFC 8259; a `\u` escape naming a surrogate half is
rejected (the source's Python accepts lone surrogates, a divergence that no
claim below exercises), and unescaped control characters are rejected as in
Python's strict default. -/
def parseStringRest (acc : List Char) : List Char → Option (List Char × List Char)
  | [] => Option.none
  | c :: cs =>
    if c = '"' then some (acc.reverse, cs)
    else if c = '\\' then
      match cs with
      | [] => Option.none
      | e :: cs1 =>
        if e = '"' then parseStringRest ('"' :: acc) cs1
        else if e = '\\' then parseStringRest ('\\' :: acc) cs1
        else if e = '/' then parseStringRest ('/' :: acc) cs1
        else if e = 'b' then parseStringRest (Char.ofNat 8 :: acc) cs1
        else if e = 'f' then parseStringRest (Char.ofNat 12 :: acc) cs1
        else if e = 'n' then parseStringRest ('\n' :: acc) cs1
        else if e = 'r' then parseStringRest ('\r' :: acc) cs1
        else if e = 't' then parseStringRest ('\t' :: acc) cs1
        else if e = 'u' then
          match cs1 with
          | h1 :: h2 :: h3 :: h4 :: cs2 =>
            match hexDigitVal h1, hexDigitVal h2, hexDigitVal h3, hexDigitVal h4 with
            | some v1, some v2, some v3, some v4 =>
              let cp := v1 * 4096 + v2 * 256 + v3 * 16 + v4
              if 0xD800 ≤ cp && cp < 0xE000 then Option.none
              else parseStringRest (Char.ofNat cp :: acc) cs2
            | _, _, _, _ => Option.none
          | _ => Option.none
        else Option.none
    else if c.toNat < 0x20 then Option.none
    else parseStringRest (c :: acc) cs

/-- Longest digit run at the head of the input, and the rest. -/
def takeDigits : List Char → List Char × List Char
  | [] => ([], [])
  | c :: cs =>
    if c.isDigit then
      let p := takeDigits cs
      (c :: p.1, p.2)
    else ([], c :: cs)

/-- Natural number denoted by a digit run. -/
def digitsToNat (acc : Nat) : List Char → Nat
  | [] => acc
  | c :: cs => digitsToNat (acc * 10 + (c.toNat - 48)) cs

/-- JSON number parsing restricted to integers, as `json.loads` produces
Python ints for them: an optional minus sign and a digit run with no
leading zero.  A following '.', 'e' or 'E' (a float literal) makes the
parse fail — floats are outside this model. -/
def parseNumber (cs : List Char) : Option (PyValue × List Char) :=
  let p : Bool × List Char :=
    match cs with
    | '-' :: rest => (true, rest)
    | _ => (false, cs)
  match takeDigits p.2 with
  | ([], _) => Option.none
  | (d :: ds, rest) =>
    if d = '0' && ds ≠ [] then Option.none
    else
      let n : Int := Int.ofNat (digitsToNat 0 (d :: ds))
      let v : PyValue := PyValue.int (if p.1 then -n else n)
      match rest with
      | c :: _ =>
        if c = '.' || c = 'e' || c = 'E' then Option.none else some (v, rest)
      | [] => some (v, [])

mutual

/-- Recursive-descent JSON value parser (the model of `json.loads`), fuel
bounded; every recursive call spends one unit of fuel, and `jsonLoads`
supplies more fuel than any parse can consume. -/
def parseValue : Nat → List Char → Option (PyValue × List Char)
  | 0, _ => Option.none
  | fuel + 1, cs =>
    match skipWs cs with
    | [] => Option.none
    | c :: rest =>
      if c = 'n' then
        match rest with
        | 'u' :: 'l' :: 'l' :: rest1 => some (PyValue.none, rest1)
        | _ => Option.none
      else if c = 't' then
        match rest with
        | 'r' :: 'u' :: 'e' :: rest1 => some (PyValue.bool true, rest1)
        | _ => Option.none
      else if c = 'f' then
        match rest with
        | 'a' :: 'l' :: 's' :: 'e' :: rest1 => some (PyValue.bool false, rest1)
        | _ => Option.none
      else if c = '"' then
        (parseStringRest [] rest).map (fun p => (PyValue.str (String.mk p.1), p.2))
      else if c = '[' then parseArrayRest fuel rest
      else if c = Char.ofNat 123 then parseObjRest fuel rest
      else if c = '-' || c.isDigit then parseNumber (c :: rest)
      else Option.none

/-- After the opening bracket of a JSON array. -/
def parseArrayRest : Nat → List Char → Option (PyValue × List Char)
  | 0, _ => Option.none
  | fuel + 1, cs =>
    match skipWs cs with
    | ']' :: rest => some (PyValue.list [], rest)
    | cs1 =>
      match parseValue fuel cs1 with
      | some (v, cs2) => parseArrayTail fuel [v] cs2
      | Option.none => Option.none

/-- After at least one array element (elements accumulated in reverse). -/
def parseArrayTail : Nat → List PyValue → List Char → Option (PyValue × List Char)
  | 0, _, _ => Option.none
  | fuel + 1, acc, cs =>
    match skipWs cs with
    | ']' :: rest => some (PyValue.list acc.reverse, rest)
    | ',' :: rest =>
      match parseValue fuel rest with
      | some (v, cs2) => parseArrayTail fuel (v :: acc) cs2
      | Option.none => Option.none
    | _ => Option.none

/-- After the opening brace of a JSON object. -/
def parseObjRest : Nat → List Char → Option (PyValue × List Char)
  | 0, _ => Option.none
  | fuel + 1, cs =>
    match skipWs cs with
    | c :: rest =>
      if c = Char.ofNat 125 then some (PyValue.dict [], rest)
      else if c = '"' then
        match parseStringRest [] rest with
        | some (k, cs1) => parseObjPair fuel [] (String.mk k) cs1
        | Option.none => Option.none
      else Option.none
    | [] => Option.none

/-- After an object key: expects the colon and the value. -/
def parseObjPair : Nat → List (String × PyValue) → String → List Char →
    Option (PyValue × List Char)
  | 0, _, _, _ => Option.none
  | fuel + 1, acc, k, cs =>
    match skipWs cs with
    | ':' :: rest =>
      match parseValue fuel rest with
      | some (v, cs2) => parseObjTail fuel ((k, v) :: acc) cs2
      | Option.none => Option.none
    | _ => Option.none

/-- After an object member (members accumulated in reverse). -/
def parseObjTail : Nat → List (String × PyValue) → List Char →
    Option (PyValue × List Char)
  | 0, _, _ => Option.none
  | fuel + 1, acc, cs =>
    match skipWs cs with
    | c :: rest =>
      if c = Char.ofNat 125 then some (PyValue.dict acc.reverse, rest)
      else if c = ',' then
        match skipWs rest with
        | c2 :: rest2 =>
          if c2 = '"' then
            match parseStringRest [] rest2 with
            | some (k, cs1) => parseObjPair fuel acc (String.mk k) cs1
            | Option.none => Option.none
          else Option.none
        | [] => Option.none
      else Option.none
    | [] => Option.none

end

/-- Model of Python `json.loads`: parse one JSON value and demand that only
whitespace follows, exactly as `json.loads` raises on trailing data.
`Option.none` plays the role of the raised `JSONDecodeError`.  The fuel
bound `2 * length + 2` exceeds the fuel any parse of the input can spend
(every two units of fuel consume at least one input character). -/
def jsonLoads (s : String) : Option PyValue :=
  match parseValue (2 * s.data.length + 2) s.data with
  | some (v, rest) => if skipWs rest = [] then some v else Option.none
  | Option.none => Option.none

/-- Python truthiness (`bool(x)`): None, False, 0, "", [] and an empty dict
are falsy, everything else modelled here is truthy. -/
def pyTruthy : PyValue → Bool
  | PyValue.none => false
  | PyValue.bool b => b
  | PyValue.int n => n != 0
  | PyValue.str s => s != ""
  | PyValue.list xs => !xs.isEmpty
  | PyValue.dict m => !m.isEmpty

/-- Python `a or b`: returns `a` when `a` is truthy, else `b`. -/
def pyOr (a b : PyValue) : PyValue := if pyTruthy a then a else b

/-- Python `dict.get(k)` on the dict built by `json.loads` (a duplicated
JSON key keeps its last value, hence the search from the right); absent
keys give `None`. -/
def dictGet (m : List (String × PyValue)) (k : String) : PyValue :=
  match m.reverse.find? (fun p => p.1 == k) with
  | some p => p.2
  | Option.none => PyValue.none

/-- The normalizer `MqttRemoteSubscriber._get_payload`, byte-for-byte from
the source: decode UTF-8 and strip (a decode failure returns Python None);
parse the stripped text as JSON; on a JSON object return
`data.get("key") or data.get("action") or payload_text`; on any other JSON
value return that value; on a parse failure return the stripped text. -/
def get_payload (payloadBytes : List Nat) : PyValue :=
  match utf8Decode payloadBytes with
  | Option.none => PyValue.none
  | some cs =>
    let payload_text := pyStrip (String.mk cs)
    match jsonLoads payload_text with
    | some (PyValue.dict m) =>
        pyOr (dictGet m "key") (pyOr (dictGet m "action") (PyValue.str payload_text))
    | some v => v
    | Option.none => PyValue.str payload_text

/-- Modelled from the spec: one entry of the Command Vocabulary (the `Keys`
enumeration of panasonic_viera/keys.py, which is not part of the sources
given here) — a canonical name and a canonical wire value.  The wire values
of the actual enumeration are all strings, which is what makes the spec's
"resolve by value" clause coherent with the integer pass-through clause. -/
structure VocabEntry where
  name : String
  value : String
deriving DecidableEq

/-- Python `str.upper()` (on the ASCII alphabet the payload names use):
uppercase every character. -/
def pyUpper (s : String) : String := String.mk (s.data.map Char.toUpper)

/-- Python `Keys[n]`: enum lookup by member name (the first — and, names
being unique, only — entry with that name). -/
def vocabFindByName (vocab : List VocabEntry) (n : String) : Option VocabEntry :=
  vocab.find? (fun e => e.name == n)

/-- Python `Keys(v)`: enum lookup by member value. -/
def vocabFindByValue (vocab : List VocabEntry) (v : String) : Option VocabEntry :=
  vocab.find? (fun e => e.value == v)

/-- What `_get_key_to_send` can return besides None: a vocabulary entry, or
the payload itself passed through raw (the int branch of the source, which
Python's `isinstance(payload, (int,))` also takes for booleans). -/
inductive KeyToSend where
  | vocabKey (e : VocabEntry) : KeyToSend
  | rawValue (v : PyValue) : KeyToSend

/-- The resolver `MqttRemoteSubscriber._get_key_to_send`, from the source:
for a string, try the enum by uppercased name (`Keys[payload.upper()]`),
then by value (`Keys(payload)`), else None; for an int — and for a bool,
since Python bools are instances of int — return the payload itself; any
other type falls off the end of the function and returns None. -/
def get_key_to_send (vocab : List VocabEntry) (payload : PyValue) : Option KeyToSend :=
  match payload with
  | PyValue.str s =>
    match vocabFindByName vocab (pyUpper s) with
    | some e => some (KeyToSend.vocabKey e)
    | Option.none =>
      match vocabFindByValue vocab s with
      | some e => some (KeyToSend.vocabKey e)
      | Option.none => Option.none
  | PyValue.int _ => some (KeyToSend.rawValue payload)
  | PyValue.bool _ => some (KeyToSend.rawValue payload)
  | _ => Option.none

/-- Lowercase hex digit. -/
def hexChar (n : Nat) : Char :=
  if n < 10 then Char.ofNat (48 + n) else Char.ofNat (87 + (n - 10))

/-- The apostrophe character (Python's preferred string-repr quote). -/
def squote : Char := Char.ofNat 39

/-- One character of a Python string repr, escaped for quote style `q`
(backslash, the quote, newline, return, tab, other control bytes as
hex escapes; printable characters kept). -/
def reprEscChar (q : Char) (c : Char) : List Char :=
  if c = '\\' then ['\\', '\\']
  else if c = q then ['\\', q]
  else if c = '\n' then ['\\', 'n']
  else if c = '\r' then ['\\', 'r']
  else if c = '\t' then ['\\', 't']
  else if c.toNat < 32 || c.toNat = 127 then
    ['\\', 'x', hexChar (c.toNat / 16), hexChar (c.toNat % 16)]
  else [c]

/-- Python `repr` of a string: single quotes, switching to double quotes
when the text contains a single quote but no double quote. -/
def pyReprString (s : String) : String :=
  let q := if s.data.contains squote && !s.data.contains '"' then '"' else squote
  String.mk (q :: (s.data.map (reprEscChar q)).flatten ++ [q])

mutual

/-- Python `repr()` on values produced by `json.loads`. -/
def pyRepr : PyValue → String
  | PyValue.none => "None"
  | PyValue.bool true => "True"
  | PyValue.bool false => "False"
  | PyValue.int n => toString n
  | PyValue.str s => pyReprString s
  | PyValue.list xs => "[" ++ pyReprJoin xs ++ "]"
  | PyValue.dict m => "\x7b" ++ pyReprPairs m ++ "\x7d"

/-- Comma-joined reprs of list elements. -/
def pyReprJoin : List PyValue → String
  | [] => ""
  | [x] => pyRepr x
  | x :: y :: xs => pyRepr x ++ ", " ++ pyReprJoin (y :: xs)

/-- Comma-joined reprs of dict members. -/
def pyReprPairs : List (String × PyValue) → String
  | [] => ""
  | [(k, v)] => pyReprString k ++ ": " ++ pyRepr v
  | (k, v) :: p :: ps => pyReprString k ++ ": " ++ pyRepr v ++ ", " ++ pyReprPairs (p :: ps)

end

/-- Python `str()`: identity on strings, `repr` otherwise (for the value
kinds modelled here). -/
def pyStr : PyValue → String
  | PyValue.str s => s
  | v => pyRepr v

/-- One character of a JSON string literal as `json.dumps` emits it with
its defaults (ensure_ascii): named escapes, and `\u` hex escapes for other
control characters and for every code point at or above 0x7F (code points
above 0xFFFF would need surrogate pairs, which no claim exercises). -/
def jsonEscChar (c : Char) : List Char :=
  if c = '"' then ['\\', '"']
  else if c = '\\' then ['\\', '\\']
  else if c = '\n' then ['\\', 'n']
  else if c = '\r' then ['\\', 'r']
  else if c = '\t' then ['\\', 't']
  else if c.toNat = 8 then ['\\', 'b']
  else if c.toNat = 12 then ['\\', 'f']
  else if c.toNat < 32 || 127 ≤ c.toNat then
    ['\\', 'u', hexChar (c.toNat / 4096 % 16), hexChar (c.toNat / 256 % 16),
      hexChar (c.toNat / 16 % 16), hexChar (c.toNat % 16)]
  else [c]

/-- A JSON string literal as `json.dumps` emits it. -/
def jsonQuote (s : String) : String :=
  String.mk ('"' :: (s.data.map jsonEscChar).flatten ++ ['"'])

mutual

/-- Model of `json.dumps` with its default separators (", " and ": "). -/
def jsonDumps : PyValue → String
  | PyValue.none => "null"
  | PyValue.bool true => "true"
  | PyValue.bool false => "false"
  | PyValue.int n => toString n
  | PyValue.str s => jsonQuote s
  | PyValue.list xs => "[" ++ jsonDumpsJoin xs ++ "]"
  | PyValue.dict m => "\x7b" ++ jsonDumpsPairs m ++ "\x7d"

/-- Comma-joined dumps of list elements. -/
def jsonDumpsJoin : List PyValue → String
  | [] => ""
  | [x] => jsonDumps x
  | x :: y :: xs => jsonDumps x ++ ", " ++ jsonDumpsJoin (y :: xs)

/-- Comma-joined dumps of dict members. -/
def jsonDumpsPairs : List (String × PyValue) → String
  | [] => ""
  | [(k, v)] => jsonQuote k ++ ": " ++ jsonDumps v
  | (k, v) :: p :: ps => jsonQuote k ++ ": " ++ jsonDumps v ++ ", " ++ jsonDumpsPairs (p :: ps)

end

/-- Argument of a `RemoteControl.send_key` call: a vocabulary entry (the
enum branch), a raw non-string Python value passed through unchanged (the
int/bool branch), or a string (`str(payload)` on the raw-pass-through
path). -/
inductive SentKey where
  | vocabKey (e : VocabEntry) : SentKey
  | rawValue (v : PyValue) : SentKey
  | rawString (s : String) : SentKey

/-- Observable calls the message handler makes against the device session
(RemoteControl) and the broker client.  A call is recorded when it is
issued, whether or not it then fails. -/
inductive Effect where
  | getApps : Effect
  | getDeviceInfo : Effect
  | getVectorInfo : Effect
  | publish (topic : String) (payload : String) : Effect
  | sendKey (k : SentKey) : Effect
  | renewSession : Effect

/-- Outcomes of the device-session calls for one message: each call either
returns a value or raises (`Except.error`).  A broker `publish` is modelled
as non-raising; the claims below never depend on a failing publish. -/
structure RemoteBehavior where
  getAppsResult : Except Unit PyValue
  getDeviceInfoResult : Except Unit PyValue
  getVectorInfoResult : Except Unit PyValue
  sendKeyResult : SentKey → Except Unit Unit
  renewResult : Except Unit Unit

/-- Python `payload is None`. -/
def pyIsNone : PyValue → Bool
  | PyValue.none => true
  | _ => false

/-- Python `payload == lit` for a string literal `lit`: true exactly when
the payload is that string (no other modelled value compares equal to a
string). -/
def pyEqStr : PyValue → String → Bool
  | PyValue.str s, t => s == t
  | _, _ => false

/-- The argument `_on_message` hands to `send_key`: the resolver's result
when it found one, else `str(payload)`. -/
def keyArg (vocab : List VocabEntry) (payload : PyValue) : SentKey :=
  match get_key_to_send vocab payload with
  | some (KeyToSend.vocabKey e) => SentKey.vocabKey e
  | some (KeyToSend.rawValue v) => SentKey.rawValue v
  | Option.none => SentKey.rawString (pyStr payload)

/-- The body of `MqttRemoteSubscriber._on_message` after `_get_payload`,
from the source: drop a None payload; short-circuit the literal string
payloads "APPS", "DEVICE_INFO" and "VECTOR_INFO" into one query call plus
one publish (a raising query propagates — those calls stand outside any
try block); otherwise resolve and send, where only the `send_key` call is
guarded — on its failure `renew_session` is called, and a failure of
`renew_session` itself (inside the except block) propagates.  Result: the
calls issued, and whether an exception escapes the callback. -/
def handle_payload (vocab : List VocabEntry) (b : RemoteBehavior) (topic : String)
    (payload : PyValue) : List Effect × Bool :=
  if pyIsNone payload then ([], false)
  else if pyEqStr payload "APPS" then
    match b.getAppsResult with
    | Except.error _ => ([Effect.getApps], true)
    | Except.ok apps =>
        ([Effect.getApps, Effect.publish (topic ++ "/apps") (jsonDumps apps)], false)
  else if pyEqStr payload "DEVICE_INFO" then
    match b.getDeviceInfoResult with
    | Except.error _ => ([Effect.getDeviceInfo], true)
    | Except.ok info =>
        ([Effect.getDeviceInfo,
          Effect.publish (topic ++ "/device_info") (jsonDumps info)], false)
  else if pyEqStr payload "VECTOR_INFO" then
    match b.getVectorInfoResult with
    | Except.error _ => ([Effect.getVectorInfo], true)
    | Except.ok info =>
        ([Effect.getVectorInfo,
          Effect.publish (topic ++ "/vector_info") (jsonDumps info)], false)
  else
    match b.sendKeyResult (keyArg vocab payload) with
    | Except.ok _ => ([Effect.sendKey (keyArg vocab payload)], false)
    | Except.error _ =>
      match b.renewResult with
      | Except.ok _ =>
          ([Effect.sendKey (keyArg vocab payload), Effect.renewSession], false)
      | Except.error _ =>
          ([Effect.sendKey (keyArg vocab payload), Effect.renewSession], true)

/-- `MqttRemoteSubscriber._on_message`: normalize the raw bytes with
`_get_payload`, then handle the result. -/
def on_message (vocab : List VocabEntry) (b : RemoteBehavior) (topic : String)
    (payloadBytes : List Nat) : List Effect × Bool :=
  handle_payload vocab b topic (get_payload payloadBytes)

/-- Connection status of the Subscription, from the spec's state machine. -/
inductive ConnStatus where
  | disconnected : ConnStatus
  | connecting : ConnStatus
  | connected : ConnStatus
  | failed : ConnStatus
deriving DecidableEq

/-- Runtime state of the Subscription: connection status, whether the
background receive loop runs, whether the topic subscription is active. -/
structure SubscriptionState where
  status : ConnStatus
  loopRunning : Bool
  subscribed : Bool
deriving DecidableEq

/-- Which broker-client calls raise during `stop()`. -/
structure StopBehavior where
  unsubscribeRaises : Bool
  disconnectRaises : Bool

/-- Broker-client calls `stop()` issues. -/
inductive StopEffect where
  | unsubscribe (topic : String) : StopEffect
  | loopStop : StopEffect
  | disconnect : StopEffect
deriving DecidableEq

/-- `MqttRemoteSubscriber.stop`, from the source: `unsubscribe(topic)` in a
try block whose except clause ignores the error (a failed unsubscribe
leaves the subscription flag as it was), then `loop_stop()`, then
`disconnect()` in a try block whose except clause ignores the error.
Modelled from the spec for the status field: a disconnect transitions the
Subscription to Disconnected (section 4.4's disconnect callback), so the
final status is Disconnected whether or not the broker call raised, the
raise being swallowed either way.  Result: the calls issued, the final
state, and whether an exception escapes `stop()` (never). -/
def stop (topic : String) (bhv : StopBehavior) (st : SubscriptionState) :
    List StopEffect × SubscriptionState × Bool :=
  let st1 := if bhv.unsubscribeRaises then st else { st with subscribed := false }
  let st2 := { st1 with loopRunning := false }
  let st3 := { st2 with status := ConnStatus.disconnected }
  ([StopEffect.unsubscribe topic, StopEffect.loopStop, StopEffect.disconnect], st3, false)

/-- A two-entry sample of the Command Vocabulary, with the names and values
the real `Keys` enumeration uses for these members. -/
def sampleVocab : List VocabEntry :=
  [⟨"VOLUME_UP", "NRC_VOLUP-ONOFF"⟩, ⟨"VOLUME_DOWN", "NRC_VOLDOWN-ONOFF"⟩]

/-- A device session on which every call succeeds. -/
def sampleRemote : RemoteBehavior where
  getAppsResult := Except.ok (PyValue.list [PyValue.str "Netflix", PyValue.str "YouTube"])
  getDeviceInfoResult := Except.ok (PyValue.dict [("model", PyValue.str "TX-50")])
  getVectorInfoResult := Except.ok (PyValue.dict [("x", PyValue.int 0)])
  sendKeyResult := fun _ => Except.ok ()
  renewResult := Except.ok ()

/-- A device session whose `get_apps` raises (everything else succeeds). -/
def appsFailRemote : RemoteBehavior where
  getAppsResult := Except.error ()
  getDeviceInfoResult := Except.ok PyValue.none
  getVectorInfoResult := Except.ok PyValue.none
  sendKeyResult := fun _ => Except.ok ()
  renewResult := Except.ok ()

/-- A device session whose `send_key` and `renew_session` both raise. -/
def sendAndRenewFailRemote : RemoteBehavior where
  getAppsResult := Except.ok (PyValue.list [])
  getDeviceInfoResult := Except.ok PyValue.none
  getVectorInfoResult := Except.ok PyValue.none
  sendKeyResult := fun _ => Except.error ()
  renewResult := Except.error ()

/-- A device session whose `send_key` raises but whose `renew_session`
succeeds. -/
def sendFailRemote : RemoteBehavior where
  getAppsResult := Except.ok (PyValue.list [])
  getDeviceInfoResult := Except.ok PyValue.none
  getVectorInfoResult := Except.ok PyValue.none
  sendKeyResult := fun _ => Except.error ()
  renewResult := Except.ok ()

/-- Bytes of the UTF-8 text `{"key":"","action":"Y"}` (a JSON object whose
"key" member is present but empty). -/
def keyEmptyActionBytes : List Nat :=
  [123, 34, 107, 101, 121, 34, 58, 34, 34, 44,
   34, 97, 99, 116, 105, 111, 110, 34, 58, 34, 89, 34, 125]

/-- Bytes of the UTF-8 text `{"key":"X"}`. -/
def keyXBytes : List Nat := [123, 34, 107, 101, 121, 34, 58, 34, 88, 34, 125]

/-- Text of `{"key":"X"}`. -/
def keyXText : String := "\x7b\"key\":\"X\"\x7d"

/-- Text of `{"key":"","action":"Y"}`. -/
def keyEmptyActionText : String := "\x7b\"key\":\"\",\"action\":\"Y\"\x7d"

/-- In a list whose image under `f` has no duplicates, searching for the
`f`-image of a member finds exactly that member. -/
theorem find?_eq_some_of_mem_nodup {α β : Type} [DecidableEq β] (f : α → β)
    (l : List α) (a : α) (ha : a ∈ l) (hnd : (l.map f).Nodup) :
    l.find? (fun x => f x == f a) = some a := by
  induction l with
  | nil => cases ha
  | cons h t ih =>
    rw [List.map_cons, List.nodup_cons] at hnd
    rcases List.mem_cons.mp ha with rfl | hat
    · simp [List.find?]
    · have hne : (f h == f a) = false := by
        refine beq_eq_false_iff_ne.mpr ?_
        intro he
        exact hnd.1 (he ▸ List.mem_map_of_mem f hat)
      simp only [List.find?, hne]
      exact ih hat hnd.2

/-- C7: a payload whose bytes are not valid UTF-8 normalizes to None
(the code's rendering of DecodeError), and the handler then issues no
device-session call and no publish and lets no exception escape. -/
theorem c7_decode_error_drops (vocab : List VocabEntry) (b : RemoteBehavior)
    (topic : String) (bytes : List Nat)
    (hdec : utf8Decode bytes = Option.none) :
    get_payload bytes = PyValue.none ∧ on_message vocab b topic bytes = ([], false) := by
  have h1 : get_payload bytes = PyValue.none := by
    unfold get_payload
    rw [hdec]
  refine ⟨h1, ?_⟩
  unfold on_message
  rw [h1]
  rfl

/-- Witness for C7 at the non-UTF-8 payload b"\x80abc" from the repo's own
test suite. -/
theorem c7_decode_error_drops_witness :
    utf8Decode [128, 97, 98, 99] = Option.none ∧
    (get_payload [128, 97, 98, 99] = PyValue.none ∧
     on_message sampleVocab sampleRemote "panasonic/remote" [128, 97, 98, 99] =
       ([], false)) :=
  ⟨rfl, c7_decode_error_drops sampleVocab sampleRemote "panasonic/remote" _ rfl⟩

/-- C9: in every starting state and under every combination of raising
unsubscribe/disconnect collaborator calls, stop() issues best-effort
unsubscribe, then stops the loop, then best-effort disconnect, raises
nothing, and leaves the subscription Disconnected with the loop stopped. -/
theorem c9_stop_best_effort (topic : String) (bhv : StopBehavior)
    (st : SubscriptionState) :
    stop topic bhv st =
      ([StopEffect.unsubscribe topic, StopEffect.loopStop, StopEffect.disconnect],
       { status := ConnStatus.disconnected, loopRunning := false,
         subscribed := if bhv.unsubscribeRaises then st.subscribed else false },
       false) := by
  cases hb : bhv.unsubscribeRaises <;> simp [stop, hb]

/-- C4: when the normalized token is the string "APPS" and the app query
succeeds, the handler issues exactly one get_apps call and exactly one
publish of the JSON-encoded app list to topic ++ "/apps", sends no key,
and its behavior does not depend on the vocabulary at all — the special
case fires before any resolution is attempted. -/
theorem c4_apps_short_circuit (vocab vocab2 : List VocabEntry) (b : RemoteBehavior)
    (topic : String) (bytes : List Nat) (apps : PyValue)
    (hp : get_payload bytes = PyValue.str "APPS")
    (ha : b.getAppsResult = Except.ok apps) :
    on_message vocab b topic bytes =
      ([Effect.getApps, Effect.publish (topic ++ "/apps") (jsonDumps apps)], false) ∧
    on_message vocab b topic bytes = on_message vocab2 b topic bytes := by
  have key : ∀ v : List VocabEntry, on_message v b topic bytes =
      ([Effect.getApps, Effect.publish (topic ++ "/apps") (jsonDumps apps)], false) := by
    intro v
    unfold on_message
    rw [hp]
    unfold handle_payload
    rw [ha]
    rfl
  exact ⟨key vocab, (key vocab).trans (key vocab2).symm⟩

/-- Witness for C4 at the payload b"APPS", a succeeding session, and two
different vocabularies. -/
theorem c4_apps_short_circuit_witness :
    on_message sampleVocab sampleRemote "panasonic/remote" [65, 80, 80, 83] =
      ([Effect.getApps,
        Effect.publish ("panasonic/remote" ++ "/apps")
          (jsonDumps (PyValue.list [PyValue.str "Netflix", PyValue.str "YouTube"]))],
       false) ∧
    on_message sampleVocab sampleRemote "panasonic/remote" [65, 80, 80, 83] =
      on_message [] sampleRemote "panasonic/remote" [65, 80, 80, 83] :=
  c4_apps_short_circuit sampleVocab [] sampleRemote "panasonic/remote" _ _ rfl rfl

/-- C5 (vocabulary modelled from the spec, the Keys enumeration not being
among the given sources): with unique names, unique values, and no value
whose uppercasing collides with a name — all true of the real enumeration —
resolving any casing of a member's name returns that member, resolving a
member's value returns that member, and a name match takes precedence. -/
theorem c5_resolver_matches_vocab (vocab : List VocabEntry)
    (hnames : (vocab.map VocabEntry.name).Nodup)
    (hvals : (vocab.map VocabEntry.value).Nodup)
    (hcross : ∀ e ∈ vocab, ∀ e2 ∈ vocab, pyUpper e.value ≠ e2.name)
    (E : VocabEntry) (hE : E ∈ vocab) :
    (∀ t : String, pyUpper t = E.name →
        get_key_to_send vocab (PyValue.str t) = some (KeyToSend.vocabKey E)) ∧
    get_key_to_send vocab (PyValue.str E.value) = some (KeyToSend.vocabKey E) ∧
    (∀ (s : String) (e : VocabEntry), vocabFindByName vocab (pyUpper s) = some e →
        get_key_to_send vocab (PyValue.str s) = some (KeyToSend.vocabKey e)) := by
  have hbyname : vocabFindByName vocab E.name = some E := by
    unfold vocabFindByName
    exact find?_eq_some_of_mem_nodup VocabEntry.name vocab E hE hnames
  refine ⟨?_, ?_, ?_⟩
  · intro t ht
    unfold get_key_to_send
    dsimp only
    rw [ht, hbyname]
  · have hn : vocabFindByName vocab (pyUpper E.value) = Option.none := by
      unfold vocabFindByName
      apply List.find?_eq_none.mpr
      intro e2 he2
      simp only [beq_eq_false_iff_ne, ne_eq, Bool.not_eq_true]
      exact fun he => (hcross E hE e2 he2) he.symm
    have hv : vocabFindByValue vocab E.value = some E := by
      unfold vocabFindByValue
      exact find?_eq_some_of_mem_nodup VocabEntry.value vocab E hE hvals
    unfold get_key_to_send
    dsimp only
    rw [hn, hv]
  · intro s e hfind
    unfold get_key_to_send
    dsimp only
    rw [hfind]

/-- Witness for C5 on a two-entry vocabulary carrying the real names and
wire values: exact name, lowercase name, mixed case, and wire value all
resolve to the same entry. -/
theorem c5_resolver_matches_vocab_witness :
    get_key_to_send sampleVocab (PyValue.str "VOLUME_UP") =
      some (KeyToSend.vocabKey ⟨"VOLUME_UP", "NRC_VOLUP-ONOFF"⟩) ∧
    get_key_to_send sampleVocab (PyValue.str "volume_up") =
      some (KeyToSend.vocabKey ⟨"VOLUME_UP", "NRC_VOLUP-ONOFF"⟩) ∧
    get_key_to_send sampleVocab (PyValue.str "VoLuMe_Up") =
      some (KeyToSend.vocabKey ⟨"VOLUME_UP", "NRC_VOLUP-ONOFF"⟩) ∧
    get_key_to_send sampleVocab (PyValue.str "NRC_VOLUP-ONOFF") =
      some (KeyToSend.vocabKey ⟨"VOLUME_UP", "NRC_VOLUP-ONOFF"⟩) := by
  have h := c5_resolver_matches_vocab sampleVocab (by decide) (by decide)
    (by decide) ⟨"VOLUME_UP", "NRC_VOLUP-ONOFF"⟩ (by decide)
  exact ⟨h.1 "VOLUME_UP" (by decide), h.1 "volume_up" (by decide),
    h.1 "VoLuMe_Up" (by decide), h.2.1⟩

/-- C3 counterexample: with payload b"APPS" and a get_apps call that
raises, the exception escapes the message callback (the query calls stand
outside every try block), refuting "any error inside the chain is caught
within the callback". -/
theorem c3_counterexample_query_fault_escapes :
    on_message sampleVocab appsFailRemote "panasonic/remote" [65, 80, 80, 83] =
      ([Effect.getApps], true) := rfl

/-- C3 amended: for every message whose normalized payload is none of the
three special query tokens, and whose session renewal succeeds when
reached, no exception escapes the callback — normalizer and resolver
failures are absorbed inside those helpers and a send_key failure is
caught; only the query-token branches (and a failing renew_session) can
let an exception escape. -/
theorem c3_amended_nonquery_never_raises (vocab : List VocabEntry)
    (b : RemoteBehavior) (topic : String) (bytes : List Nat)
    (hA : pyEqStr (get_payload bytes) "APPS" = false)
    (hD : pyEqStr (get_payload bytes) "DEVICE_INFO" = false)
    (hV : pyEqStr (get_payload bytes) "VECTOR_INFO" = false)
    (hR : b.renewResult = Except.ok ()) :
    (on_message vocab b topic bytes).2 = false := by
  unfold on_message handle_payload
  rw [hA, hD, hV, hR]
  cases hn : pyIsNone (get_payload bytes) with
  | true => simp [hn]
  | false =>
    cases hs : b.sendKeyResult (keyArg vocab (get_payload bytes)) <;> simp [hn, hs]

/-- Witness for the amended C3 at an ordinary raw-string payload with a
failing send_key but succeeding renew_session. -/
theorem c3_amended_nonquery_never_raises_witness :
    (on_message sampleVocab sendFailRemote "panasonic/remote" [88]).2 = false :=
  c3_amended_nonquery_never_raises sampleVocab sendFailRemote "panasonic/remote"
    [88] rfl rfl rfl rfl

/-- C6 counterexample: send_key raises and renew_session also raises; the
handler still makes exactly one renew_session call, but the renew fault
escapes the callback, refuting "propagates no fault out of the message
callback". -/
theorem c6_counterexample_renew_fault_escapes :
    on_message sampleVocab sendAndRenewFailRemote "panasonic/remote" [88] =
      ([Effect.sendKey (SentKey.rawString "X"), Effect.renewSession], true) := rfl

/-- C6 amended: when a non-special payload's send_key call raises, the
handler makes exactly one renew_session call and — provided renew_session
itself returns — lets no fault escape and returns normally. -/
theorem c6_amended_one_renew_then_normal (vocab : List VocabEntry)
    (b : RemoteBehavior) (topic : String) (bytes : List Nat)
    (hn : pyIsNone (get_payload bytes) = false)
    (hA : pyEqStr (get_payload bytes) "APPS" = false)
    (hD : pyEqStr (get_payload bytes) "DEVICE_INFO" = false)
    (hV : pyEqStr (get_payload bytes) "VECTOR_INFO" = false)
    (hfail : b.sendKeyResult (keyArg vocab (get_payload bytes)) = Except.error ())
    (hrenew : b.renewResult = Except.ok ()) :
    on_message vocab b topic bytes =
      ([Effect.sendKey (keyArg vocab (get_payload bytes)), Effect.renewSession],
       false) := by
  unfold on_message handle_payload
  rw [hn, hA, hD, hV, hfail, hrenew]
  rfl

/-- Witness for the amended C6 at the raw payload b"X" with failing
send_key and succeeding renew_session. -/
theorem c6_amended_one_renew_then_normal_witness :
    on_message sampleVocab sendFailRemote "panasonic/remote" [88] =
      ([Effect.sendKey (SentKey.rawString "X"), Effect.renewSession], false) :=
  c6_amended_one_renew_then_normal sampleVocab sendFailRemote "panasonic/remote"
    [88] rfl rfl rfl rfl rfl rfl

/-- C8: a non-empty string token that is not a query token and matches no
vocabulary name (case-insensitively) and no vocabulary value resolves to
None, and the handler sends exactly the original string, unchanged, as the
one raw send_key command. -/
theorem c8_unknown_string_raw_passthrough (vocab : List VocabEntry)
    (b : RemoteBehavior) (topic : String) (bytes : List Nat) (s : String)
    (hp : get_payload bytes = PyValue.str s)
    (hne : s ≠ "")
    (hA : s ≠ "APPS") (hD : s ≠ "DEVICE_INFO") (hV : s ≠ "VECTOR_INFO")
    (hname : vocabFindByName vocab (pyUpper s) = Option.none)
    (hvalue : vocabFindByValue vocab s = Option.none)
    (hok : b.sendKeyResult (SentKey.rawString s) = Except.ok ()) :
    get_key_to_send vocab (PyValue.str s) = Option.none ∧
    on_message vocab b topic bytes = ([Effect.sendKey (SentKey.rawString s)], false) := by
  have hres : get_key_to_send vocab (PyValue.str s) = Option.none := by
    unfold get_key_to_send
    dsimp only
    rw [hname, hvalue]
  have hsent : keyArg vocab (PyValue.str s) = SentKey.rawString s := by
    unfold keyArg
    rw [hres]
    rfl
  refine ⟨hres, ?_⟩
  unfold on_message
  rw [hp]
  unfold handle_payload
  have e2 : pyEqStr (PyValue.str s) "APPS" = false := by
    simp only [pyEqStr, beq_eq_false_iff_ne, ne_eq]
    exact hA
  have e3 : pyEqStr (PyValue.str s) "DEVICE_INFO" = false := by
    simp only [pyEqStr, beq_eq_false_iff_ne, ne_eq]
    exact hD
  have e4 : pyEqStr (PyValue.str s) "VECTOR_INFO" = false := by
    simp only [pyEqStr, beq_eq_false_iff_ne, ne_eq]
    exact hV
  rw [show pyIsNone (PyValue.str s) = false from rfl, e2, e3, e4, hsent, hok]
  rfl

/-- Witness for C8 at the unknown payload b"ZZZ" against the sample
vocabulary. -/
theorem c8_unknown_string_raw_passthrough_witness :
    get_key_to_send sampleVocab (PyValue.str "ZZZ") = Option.none ∧
    on_message sampleVocab sampleRemote "panasonic/remote" [90, 90, 90] =
      ([Effect.sendKey (SentKey.rawString "ZZZ")], false) :=
  c8_unknown_string_raw_passthrough sampleVocab sampleRemote "panasonic/remote"
    [90, 90, 90] "ZZZ" rfl (by decide) (by decide) (by decide) (by decide)
    rfl rfl rfl

/-- C1 counterexample: the payload bytes of the JSON object text holding
"key" mapped to the empty string and "action" mapped to "Y".  The "key"
entry is present (its lookup yields the empty string), yet normalization
returns "Y" — the source's `or` chain skips a present-but-falsy "key"
value, refuting "returns the value mapped by the key entry when that key
is present". -/
theorem c1_counterexample_falsy_key_skipped :
    utf8Decode keyEmptyActionBytes = some keyEmptyActionText.data ∧
    jsonLoads (pyStrip keyEmptyActionText) =
      some (PyValue.dict [("key", PyValue.str ""), ("action", PyValue.str "Y")]) ∧
    dictGet [("key", PyValue.str ""), ("action", PyValue.str "Y")] "key" =
      PyValue.str "" ∧
    get_payload keyEmptyActionBytes = PyValue.str "Y" ∧
    PyValue.str "Y" ≠ PyValue.str "" := by
  refine ⟨rfl, rfl, rfl, rfl, ?_⟩
  intro h
  injection h with h2
  exact absurd h2 (by decide)

/-- C1 amended: for a payload that decodes and trims to text parsing as a
JSON object, normalization returns the object's "key" value when that
value is present and truthy, else the "action" value when present and
truthy, and else the whole trimmed text — presence with a falsy value
(null, false, 0, empty string/list/dict) is treated like absence. -/
theorem c1_amended_truthy_key_precedence (bytes : List Nat) (cs : List Char)
    (m : List (String × PyValue))
    (hdec : utf8Decode bytes = some cs)
    (hjson : jsonLoads (pyStrip (String.mk cs)) = some (PyValue.dict m)) :
    (pyTruthy (dictGet m "key") = true → get_payload bytes = dictGet m "key") ∧
    (pyTruthy (dictGet m "key") = false → pyTruthy (dictGet m "action") = true →
      get_payload bytes = dictGet m "action") ∧
    (pyTruthy (dictGet m "key") = false → pyTruthy (dictGet m "action") = false →
      get_payload bytes = PyValue.str (pyStrip (String.mk cs))) := by
  have hval : get_payload bytes =
      pyOr (dictGet m "key")
        (pyOr (dictGet m "action") (PyValue.str (pyStrip (String.mk cs)))) := by
    unfold get_payload
    rw [hdec]
    dsimp only
    rw [hjson]
  refine ⟨?_, ?_, ?_⟩
  · intro hk
    rw [hval]
    unfold pyOr
    rw [hk]
    rfl
  · intro hk ha
    rw [hval]
    unfold pyOr
    rw [hk, ha]
    rfl
  · intro hk ha
    rw [hval]
    unfold pyOr
    rw [hk, ha]
    rfl

/-- Witness for the amended C1 at the payload bytes of the JSON text
holding "key" mapped to "X" (the truthy-key branch). -/
theorem c1_amended_truthy_key_precedence_witness :
    get_payload keyXBytes = dictGet [("key", PyValue.str "X")] "key" :=
  (c1_amended_truthy_key_precedence keyXBytes keyXText.data
    [("key", PyValue.str "X")] rfl rfl).1 rfl

/-- C2 counterexample: the empty payload normalizes to the empty string —
not None, the code's rendering of Absent — and the handler then does act:
it resolves the empty string like any unknown token and issues a send_key
call carrying the empty string. -/
theorem c2_counterexample_empty_payload_sends :
    get_payload [] = PyValue.str "" ∧
    on_message sampleVocab sampleRemote "panasonic/remote" [] =
      ([Effect.sendKey (SentKey.rawString "")], false) := ⟨rfl, rfl⟩

/-- C2 amended: a payload that decodes and trims to the empty string
normalizes to the empty string token, and the handler — the empty string
matching no vocabulary name or value — sends one raw send_key command
carrying the empty string (rather than dropping the message). -/
theorem c2_amended_empty_string_passthrough (vocab : List VocabEntry)
    (b : RemoteBehavior) (topic : String) (bytes : List Nat) (cs : List Char)
    (hdec : utf8Decode bytes = some cs)
    (hstrip : pyStrip (String.mk cs) = "")
    (hname : vocabFindByName vocab "" = Option.none)
    (hvalue : vocabFindByValue vocab "" = Option.none)
    (hok : b.sendKeyResult (SentKey.rawString "") = Except.ok ()) :
    get_payload bytes = PyValue.str "" ∧
    on_message vocab b topic bytes =
      ([Effect.sendKey (SentKey.rawString "")], false) := by
  have h0 : get_payload bytes = PyValue.str "" := by
    unfold get_payload
    rw [hdec]
    dsimp only
    rw [hstrip]
    rfl
  refine ⟨h0, ?_⟩
  have hres : get_key_to_send vocab (PyValue.str "") = Option.none := by
    unfold get_key_to_send
    dsimp only
    rw [show pyUpper "" = "" from rfl, hname, hvalue]
  have hsent : keyArg vocab (PyValue.str "") = SentKey.rawString "" := by
    unfold keyArg
    rw [hres]
    rfl
  unfold on_message
  rw [h0]
  unfold handle_payload
  rw [show pyIsNone (PyValue.str "") = false from rfl,
    show pyEqStr (PyValue.str "") "APPS" = false from rfl,
    show pyEqStr (PyValue.str "") "DEVICE_INFO" = false from rfl,
    show pyEqStr (PyValue.str "") "VECTOR_INFO" = false from rfl,
    hsent, hok]
  rfl

/-- Witness for the amended C2 at the empty byte sequence against the
sample vocabulary. -/
theorem c2_amended_empty_string_passthrough_witness :
    get_payload [] = PyValue.str "" ∧
    on_message sampleVocab sampleRemote "panasonic/remote" [] =
      ([Effect.sendKey (SentKey.rawString "")], false) :=
  c2_amended_empty_string_passthrough sampleVocab sampleRemote "panasonic/remote"
    [] [] rfl rfl rfl rfl rfl

/-- C10 counterexample: the JSON payload b"true" normalizes to the Python
boolean True, for which the resolver does not return None — booleans being
int instances in Python, it returns the boolean itself and send_key
receives it unchanged, not the text rendering "True"; and the JSON payload
b"null" normalizes to Python None, which the handler drops without any
send_key call instead of sending the rendering "None". -/
theorem c10_counterexample_bool_and_null :
    get_payload [116, 114, 117, 101] = PyValue.bool true ∧
    get_key_to_send sampleVocab (PyValue.bool true) =
      some (KeyToSend.rawValue (PyValue.bool true)) ∧
    on_message sampleVocab sampleRemote "panasonic/remote" [116, 114, 117, 101] =
      ([Effect.sendKey (SentKey.rawValue (PyValue.bool true))], false) ∧
    get_payload [110, 117, 108, 108] = PyValue.none ∧
    on_message sampleVocab sampleRemote "panasonic/remote" [110, 117, 108, 108] =
      ([], false) := ⟨rfl, rfl, rfl, rfl, rfl⟩

/-- C10 amended: for a normalized token that is a JSON array (neither a
string, an integer, a boolean, nor null), the resolver returns None and
the handler makes exactly one send_key call carrying Python's str()
rendering of the decoded value; booleans instead take the integer branch
(send_key receives the boolean itself), and null is dropped before
dispatch. -/
theorem c10_amended_composite_stringified (vocab : List VocabEntry)
    (b : RemoteBehavior) (topic : String) (bytes : List Nat) (xs : List PyValue)
    (hp : get_payload bytes = PyValue.list xs)
    (hok : b.sendKeyResult (SentKey.rawString (pyStr (PyValue.list xs))) =
      Except.ok ()) :
    get_key_to_send vocab (PyValue.list xs) = Option.none ∧
    on_message vocab b topic bytes =
      ([Effect.sendKey (SentKey.rawString (pyStr (PyValue.list xs)))], false) := by
  have hres : get_key_to_send vocab (PyValue.list xs) = Option.none := rfl
  have hsent : keyArg vocab (PyValue.list xs) =
      SentKey.rawString (pyStr (PyValue.list xs)) := rfl
  refine ⟨hres, ?_⟩
  unfold on_message
  rw [hp]
  unfold handle_payload
  rw [show pyIsNone (PyValue.list xs) = false from rfl,
    show pyEqStr (PyValue.list xs) "APPS" = false from rfl,
    show pyEqStr (PyValue.list xs) "DEVICE_INFO" = false from rfl,
    show pyEqStr (PyValue.list xs) "VECTOR_INFO" = false from rfl,
    hsent, hok]
  rfl

/-- Witness for the amended C10 at the payload b'["a","b"]', whose str()
rendering uses Python's single-quoted list repr. -/
theorem c10_amended_composite_stringified_witness :
    (get_key_to_send sampleVocab (PyValue.list [PyValue.str "a", PyValue.str "b"]) =
        Option.none ∧
      on_message sampleVocab sampleRemote "panasonic/remote"
          [91, 34, 97, 34, 44, 34, 98, 34, 93] =
        ([Effect.sendKey (SentKey.rawString
            (pyStr (PyValue.list [PyValue.str "a", PyValue.str "b"])))], false)) ∧
    (pyStr (PyValue.list [PyValue.str "a", PyValue.str "b"])).data =
      ['[', Char.ofNat 39, 'a', Char.ofNat 39, ',', ' ',
       Char.ofNat 39, 'b', Char.ofNat 39, ']'] :=
  ⟨c10_amended_composite_stringified sampleVocab sampleRemote "panasonic/remote"
    [91, 34, 97, 34, 44, 34, 98, 34, 93] [PyValue.str "a", PyValue.str "b"]
    rfl rfl, rfl⟩
